import Mathlib

/-!
Shallow embedding of `alerta_telegram.py` (the alerta Telegram plugin).

The plugin's `TelegramBot.post_receive` hook is embedded as a pure function
over an explicit configuration record, an explicit template, and an explicit
model of the Telegram `sendMessage` call.  Python exceptions are modelled
with `Except`; the module-level configuration globals become fields of
`Config`; the jinja2 template is modelled by a small template AST covering
exactly the constructs the plugin's default template uses (literal text,
variable substitution, `capitalize()`, the `replace` filter and
`if` blocks), with jinja2's default-undefined semantics: a bare
`\x7b\x7b name \x7d\x7d` of a missing name renders as the empty string, while
touching a missing name (method call or filter) raises `UndefinedError`.
-/

namespace AlertaTelegram

/-- A Python value as it appears in an alert's `__dict__`. -/
inductive PyVal where
  | str (s : String)
  | bool (b : Bool)
  | pyNone
deriving DecidableEq, Repr

/-- Python exceptions relevant to the plugin: telepot's structured
`TelegramError` (error_code, description, json), jinja2's `UndefinedError`,
`TypeError` (e.g. membership test on `None`), and any other exception. -/
inductive PyExc where
  | telegramError (error_code : Int) (description : String) (json : String)
  | undefinedError
  | typeError (msg : String)
  | other (msg : String)
deriving DecidableEq, Repr

/-- The `str()` text of an exception, used when it is interpolated into a
generic `RuntimeError`. -/
def pyExcStr : PyExc → String
  | .telegramError _ d _ => d
  | .undefinedError => "UndefinedError"
  | .typeError m => "TypeError: " ++ m
  | .other m => m

/-- The `RuntimeError` the plugin raises from its `except` clauses: either the
detailed form carrying the provider's error_code/description/json (from
`except telepot.exception.TelegramError`), or the generic form carrying the
original exception's text (from `except Exception`).  Each carries the
format string used at the raise site. -/
inductive RuntimeErr where
  | telegramDetail (fmt : String) (error_code : Int) (description : String) (json : String)
  | generic (fmt : String) (excText : String)
deriving DecidableEq, Repr

/-- What escapes `post_receive`: a deliberately raised `RuntimeError`, or an
exception the code does not catch (e.g. a non-`UndefinedError` raised while
rendering). -/
inductive Raised where
  | runtimeError (e : RuntimeErr)
  | uncaught (e : PyExc)
deriving DecidableEq, Repr

/-- One inline-keyboard button (`text`, `callback_data`). -/
structure Button where
  text : String
  callback_data : String
deriving DecidableEq, Repr

/-- The `inline_keyboard` rows. -/
abbrev Keyboard := List (List Button)

/-- The arguments of one `bot.sendMessage` call. -/
structure SendArgs where
  chat_id : String
  text : String
  parse_mode : String
  disable_notification : Bool
  reply_markup : Option Keyboard
deriving DecidableEq, Repr

/-- The alert object the host hands to `post_receive` (the fields the plugin
reads, plus the fields its default template renders). -/
structure Alert where
  id : String
  resource : String
  event : String
  environment : String
  severity : String
  previous_severity : String
  status : String
  customer : Option String
  text : String
  «repeat» : Bool
deriving DecidableEq, Repr

/-- The module-level configuration globals the `post_receive` path reads.
The severity options are modelled as the set (list) of severities they name;
unset is the empty list, matching Python falsiness of `None`/empty.  The
per-customer chat map is `Option`al because
`app.config.get('TELEGRAM_CHAT_ID_PER_CUSTOMER')` yields `None` when the
option is absent. -/
structure Config where
  TELEGRAM_CHAT_ID : String
  TELEGRAM_WEBHOOK_URL : Option String
  TELEGRAM_SOUND_NOTIFICATION_SEVERITY : List String
  TELEGRAM_FILTER_NOTIFICATION_SEVERITY : List String
  TELEGRAM_CHAT_ID_PER_CUSTOMER : Option (List (Option String × String))
deriving DecidableEq, Repr

/-- Template AST: the jinja2 constructs the plugin's template uses. -/
inductive Tmpl where
  | nilT
  | lit (s : String)
  | var (name : String)
  | varCapitalize (name : String)
  | varReplace (name : String) (pat sub : String)
  | cond (name : String) (thenT elseT : Tmpl)
  | seq (a b : Tmpl)
deriving DecidableEq, Repr

/-- Python `str.capitalize()`: first character upper-cased, the rest
lower-cased. -/
def pyCapitalize (s : String) : String :=
  match s.data with
  | [] => ""
  | c :: cs => String.mk (c.toUpper :: cs.map Char.toLower)

/-- jinja2 truthiness of a looked-up name: missing names and `None` are
falsy, a string is truthy iff non-empty, a bool is itself. -/
def truthy : Option PyVal → Bool
  | none => false
  | some .pyNone => false
  | some (.bool b) => b
  | some (.str s) => !s.isEmpty

/-- Render a template against a context (the alert's `__dict__`), with
jinja2's default `Undefined`: a bare variable of a missing name renders as
`""`; calling `.capitalize()` on a missing name raises `UndefinedError`
(and on `None`/bool an `AttributeError`, which the plugin does NOT catch);
the `replace` filter stringifies `None`/bools but raises `UndefinedError`
on a missing name. -/
def renderTmpl : Tmpl → List (String × PyVal) → Except PyExc String
  | .nilT, _ => .ok ""
  | .lit s, _ => .ok s
  | .var k, ctx =>
      match ctx.lookup k with
      | some (.str s) => .ok s
      | some (.bool b) => .ok (if b then "True" else "False")
      | some .pyNone => .ok "None"
      | none => .ok ""
  | .varCapitalize k, ctx =>
      match ctx.lookup k with
      | some (.str s) => .ok (pyCapitalize s)
      | some (.bool _) => .error (.other "AttributeError: bool has no attribute capitalize")
      | some .pyNone => .error (.other "AttributeError: NoneType has no attribute capitalize")
      | none => .error .undefinedError
  | .varReplace k pat sub, ctx =>
      match ctx.lookup k with
      | some (.str s) => .ok (s.replace pat sub)
      | some (.bool b) => .ok ((if b then "True" else "False").replace pat sub)
      | some .pyNone => .ok ("None".replace pat sub)
      | none => .error .undefinedError
  | .cond k t e, ctx => if truthy (ctx.lookup k) then renderTmpl t ctx else renderTmpl e ctx
  | .seq a b, ctx =>
      match renderTmpl a ctx, renderTmpl b ctx with
      | .ok sa, .ok sb => .ok (sa ++ sb)
      | .error e, _ => .error e
      | _, .error e => .error e

/-- `DEFAULT_TMPL` of the plugin as a template AST (jinja2 drops the final
trailing newline of a template source by default). -/
def DEFAULT_TMPL : Tmpl :=
  .seq (.lit "\n")
  (.seq (.cond "customer" (.seq (.lit "Customer: `") (.seq (.var "customer") (.lit "` "))) .nilT)
  (.seq (.lit "\n\n*[")
  (.seq (.varCapitalize "status")
  (.seq (.lit "] ")
  (.seq (.var "environment")
  (.seq (.lit " ")
  (.seq (.varCapitalize "severity")
  (.seq (.lit "*\n")
  (.seq (.varReplace "event" "_" "\\_")
  (.seq (.lit " ")
  (.seq (.varCapitalize "resource")
  (.seq (.lit "\n\n```\n")
  (.seq (.var "text")
  (.lit "\n```"))))))))))))))

/-- The alert's `__dict__` as a render context. -/
def alertDict (alert : Alert) : List (String × PyVal) :=
  [("id", .str alert.id),
   ("resource", .str alert.resource),
   ("event", .str alert.event),
   ("environment", .str alert.environment),
   ("severity", .str alert.severity),
   ("previous_severity", .str alert.previous_severity),
   ("status", .str alert.status),
   ("customer", match alert.customer with | some c => .str c | none => .pyNone),
   ("text", .str alert.text),
   ("repeat", .bool alert.«repeat»)]

/-- The fallback text `post_receive` substitutes when rendering raises
`UndefinedError` (the two adjacent source string literals concatenated). -/
def FALLBACK_TEXT : String :=
  "Something bad has happened but also we can\x27t handle your telegram template message."

/-- The `send_alert` flag computed when `TELEGRAM_FILTER_NOTIFICATION_SEVERITY`
is set: for closed alerts only the previous severity matters; otherwise
either the previous or the current severity being listed suffices. -/
def send_alert_decision (filterSev : List String) (alert : Alert) : Bool :=
  if alert.status == "closed" then
    filterSev.contains alert.previous_severity
  else
    filterSev.contains alert.previous_severity || filterSev.contains alert.severity

/-- Python truthiness of the webhook-url option. -/
def webhookTruthy : Option String → Bool
  | none => false
  | some s => !s.isEmpty

/-- The inline keyboard built when `TELEGRAM_WEBHOOK_URL` is set. -/
def keyboard_for (cfg : Config) (alert : Alert) : Option Keyboard :=
  if webhookTruthy cfg.TELEGRAM_WEBHOOK_URL then
    some [[{ text := "ack", callback_data := "/ack " ++ alert.id },
           { text := "close", callback_data := "/close " ++ alert.id },
           { text := "blackout", callback_data := "/blackout " ++ alert.id }]]
  else none

/-- The `disable_notification` flag: when the sound-severity option is set it
defaults to `true` and flips to `false` only for listed severities; when the
option is unset it is `false`. -/
def disable_notification_for (cfg : Config) (alert : Alert) : Bool :=
  if !cfg.TELEGRAM_SOUND_NOTIFICATION_SEVERITY.isEmpty then
    if cfg.TELEGRAM_SOUND_NOTIFICATION_SEVERITY.contains alert.severity then false else true
  else false

/-- The chat id used: the per-customer map entry when the customer is a key,
else the default `TELEGRAM_CHAT_ID`.  Only meaningful when the map is a dict
(`some m`); the `none` case raises before this is computed. -/
def tg_chat_id_for (cfg : Config) (alert : Alert) (m : List (Option String × String)) : String :=
  (m.lookup alert.customer).getD cfg.TELEGRAM_CHAT_ID

/-- The full argument record of the one `sendMessage` call. -/
def mkSendArgs (cfg : Config) (alert : Alert) (m : List (Option String × String))
    (text : String) : SendArgs :=
  { chat_id := tg_chat_id_for cfg alert m
    text := text
    parse_mode := "Markdown"
    disable_notification := disable_notification_for cfg alert
    reply_markup := keyboard_for cfg alert }

instance {ε α : Type} [DecidableEq ε] [DecidableEq α] : DecidableEq (Except ε α) := fun x y =>
  match x, y with
  | .ok a, .ok b =>
      if h : a = b then .isTrue (by rw [h]) else .isFalse (fun hh => h (Except.ok.inj hh))
  | .error a, .error b =>
      if h : a = b then .isTrue (by rw [h]) else .isFalse (fun hh => h (Except.error.inj hh))
  | .ok _, .error _ => .isFalse (fun hh => Except.noConfusion hh)
  | .error _, .ok _ => .isFalse (fun hh => Except.noConfusion hh)

/-- The observable outcome of one `post_receive` call: whether the template
was rendered (i.e. the event passed all filters), the list of `sendMessage`
calls performed (empty or a singleton), and the Python-level result —
`ok none` for a silent early return, `ok (some resp)` for a delivered
message, `error` for a raised exception. -/
structure PRState where
  rendered : Bool
  calls : List SendArgs
  result : Except Raised (Option String)
deriving DecidableEq, Repr

/-- The early-return outcome of a filtered (suppressed) event. -/
def suppressedResult : PRState :=
  { rendered := false, calls := [], result := .ok none }

/-- The message raised by Python for `x in None`. -/
def noneMapTypeErr : PyExc :=
  .typeError "argument of type NoneType is not iterable"

/-- The format strings of the two `raise RuntimeError(...)` sites. -/
def TELEGRAM_ERR_FMT : String := "Telegram: ERROR - %s, description= %s, json=%s"

def GENERIC_ERR_FMT : String := "Telegram: ERROR - %s"

/-- How the two `except` clauses around `sendMessage` wrap an exception:
telepot's `TelegramError` becomes the detailed `RuntimeError`, anything else
the generic one carrying the exception's text. -/
def wrapRuntime : PyExc → RuntimeErr
  | .telegramError c d j => .telegramDetail TELEGRAM_ERR_FMT c d j
  | e => .generic GENERIC_ERR_FMT (pyExcStr e)

/-- The `try:` block around destination resolution and `sendMessage`:
`alert.customer in TELEGRAM_CHAT_ID_PER_CUSTOMER` raises `TypeError` when the
map is `None` (caught by `except Exception` and re-raised as the generic
`RuntimeError` before any send call); otherwise the resolved chat id, text,
`parse_mode='Markdown'`, the `disable_notification` flag and the optional
keyboard are sent in a single `sendMessage` call, whose failure is wrapped
by `wrapRuntime`. -/
def dispatch (cfg : Config) (bot : SendArgs → Except PyExc String) (alert : Alert)
    (text : String) : PRState :=
  match cfg.TELEGRAM_CHAT_ID_PER_CUSTOMER with
  | none =>
      { rendered := true, calls := [],
        result := .error (.runtimeError (.generic GENERIC_ERR_FMT (pyExcStr noneMapTypeErr))) }
  | some m =>
      let args := mkSendArgs cfg alert m text
      match bot args with
      | .ok resp => { rendered := true, calls := [args], result := .ok (some resp) }
      | .error e =>
          { rendered := true, calls := [args], result := .error (.runtimeError (wrapRuntime e)) }

/-- `TelegramBot.post_receive`, embedded.  In source order: the `repeat`
early return; the closed-with-indeterminate-previous-severity early return;
the severity filter (only when `TELEGRAM_FILTER_NOTIFICATION_SEVERITY` is
set); the template render with `UndefinedError` caught and replaced by
`FALLBACK_TEXT` (any other render exception propagates uncaught); then the
keyboard, sound flag, destination resolution and the one `sendMessage`
call, with its error mapping. -/
def post_receive (cfg : Config) (tmpl : Tmpl) (bot : SendArgs → Except PyExc String)
    (alert : Alert) : PRState :=
  if alert.«repeat» then
    suppressedResult
  else if alert.status == "closed" && alert.previous_severity == "indeterminate" then
    suppressedResult
  else if !cfg.TELEGRAM_FILTER_NOTIFICATION_SEVERITY.isEmpty &&
          !send_alert_decision cfg.TELEGRAM_FILTER_NOTIFICATION_SEVERITY alert then
    suppressedResult
  else
    match renderTmpl tmpl (alertDict alert) with
    | .error .undefinedError => dispatch cfg bot alert FALLBACK_TEXT
    | .error e => { rendered := true, calls := [], result := .error (.uncaught e) }
    | .ok text => dispatch cfg bot alert text

/-- The combined filter predicate: an event reaches rendering and dispatch
iff it is not a repeat, not closed-with-indeterminate-previous-severity, and
passes the severity filter (vacuously when the filter option is unset). -/
def should_dispatch (cfg : Config) (alert : Alert) : Bool :=
  !alert.«repeat» &&
  !(alert.status == "closed" && alert.previous_severity == "indeterminate") &&
  (cfg.TELEGRAM_FILTER_NOTIFICATION_SEVERITY.isEmpty ||
   send_alert_decision cfg.TELEGRAM_FILTER_NOTIFICATION_SEVERITY alert)

/-- A template whose render errors, if any, are all `UndefinedError` — the
only render exception `post_receive` catches. -/
def renderRecoverable (tmpl : Tmpl) (ctx : List (String × PyVal)) : Prop :=
  ∀ e, renderTmpl tmpl ctx = Except.error e → e = PyExc.undefinedError

/-! Concrete fixtures used by witnesses and counterexamples. -/

/-- A `sendMessage` stub that always succeeds. -/
def botOk : SendArgs → Except PyExc String := fun _ => Except.ok "sent"

/-- A one-literal template (renders without touching any field). -/
def tmplLit : Tmpl := .lit "message"

/-- A template that calls `.capitalize()` on a field no alert has, so
rendering raises `UndefinedError`. -/
def tmplUndef : Tmpl := .varCapitalize "nonexistent_field"

def cfgBase : Config :=
  { TELEGRAM_CHAT_ID := "-1001"
    TELEGRAM_WEBHOOK_URL := none
    TELEGRAM_SOUND_NOTIFICATION_SEVERITY := []
    TELEGRAM_FILTER_NOTIFICATION_SEVERITY := []
    TELEGRAM_CHAT_ID_PER_CUSTOMER := some [(some "acme", "-1002")] }

def cfgNoMap : Config := { cfgBase with TELEGRAM_CHAT_ID_PER_CUSTOMER := none }

def cfgFilter : Config :=
  { cfgBase with TELEGRAM_FILTER_NOTIFICATION_SEVERITY := ["critical", "major"] }

def alertOpen : Alert :=
  { id := "a1", resource := "web01", event := "cpu_load", environment := "prod"
    severity := "critical", previous_severity := "warning", status := "open"
    customer := none, text := "high load", «repeat» := false }

def alertRepeated : Alert := { alertOpen with «repeat» := true }

def alertClosedIndet : Alert :=
  { alertOpen with status := "closed", previous_severity := "indeterminate" }

def alertAcme : Alert := { alertOpen with customer := some "acme" }

/-! Helper lemmas about `dispatch` and `post_receive`. -/

theorem dispatch_rendered (cfg : Config) (bot : SendArgs → Except PyExc String)
    (alert : Alert) (text : String) : (dispatch cfg bot alert text).rendered = true := by
  unfold dispatch
  cases hm : cfg.TELEGRAM_CHAT_ID_PER_CUSTOMER with
  | none => rfl
  | some m =>
    simp only []
    cases hb : bot (mkSendArgs cfg alert m text) <;> simp [hb]

theorem dispatch_none_map (cfg : Config) (bot : SendArgs → Except PyExc String)
    (alert : Alert) (text : String) (hm : cfg.TELEGRAM_CHAT_ID_PER_CUSTOMER = none) :
    dispatch cfg bot alert text =
      { rendered := true, calls := [],
        result := .error (.runtimeError (.generic GENERIC_ERR_FMT (pyExcStr noneMapTypeErr))) } := by
  unfold dispatch
  rw [hm]

theorem dispatch_some_map_calls (cfg : Config) (bot : SendArgs → Except PyExc String)
    (alert : Alert) (text : String) (m : List (Option String × String))
    (hm : cfg.TELEGRAM_CHAT_ID_PER_CUSTOMER = some m) :
    (dispatch cfg bot alert text).calls = [mkSendArgs cfg alert m text] := by
  unfold dispatch
  rw [hm]
  cases hb : bot (mkSendArgs cfg alert m text) <;> simp [hb]

theorem post_receive_rendered (cfg : Config) (tmpl : Tmpl)
    (bot : SendArgs → Except PyExc String) (alert : Alert) :
    (post_receive cfg tmpl bot alert).rendered = should_dispatch cfg alert := by
  unfold post_receive should_dispatch
  cases h1 : alert.«repeat» with
  | true => simp [h1, suppressedResult]
  | false =>
    simp only [h1, Bool.not_false, Bool.true_and, if_false, Bool.false_eq_true]
    cases h2 : (alert.status == "closed" && alert.previous_severity == "indeterminate") with
    | true => simp [h2, suppressedResult]
    | false =>
      simp only [h2, Bool.not_false, Bool.true_and, Bool.false_eq_true, if_false]
      cases h3 : (!cfg.TELEGRAM_FILTER_NOTIFICATION_SEVERITY.isEmpty &&
          !send_alert_decision cfg.TELEGRAM_FILTER_NOTIFICATION_SEVERITY alert) with
      | true =>
        simp only [h3, if_true, suppressedResult]
        have := h3
        rw [Bool.and_eq_true, Bool.not_eq_true', Bool.not_eq_true'] at this
        simp [this.1, this.2]
      | false =>
        simp only [h3, Bool.false_eq_true, if_false]
        have : (cfg.TELEGRAM_FILTER_NOTIFICATION_SEVERITY.isEmpty ||
            send_alert_decision cfg.TELEGRAM_FILTER_NOTIFICATION_SEVERITY alert) = true := by
          cases hA : cfg.TELEGRAM_FILTER_NOTIFICATION_SEVERITY.isEmpty with
          | true => simp
          | false =>
            cases hB : send_alert_decision cfg.TELEGRAM_FILTER_NOTIFICATION_SEVERITY alert with
            | true => simp
            | false => rw [hA, hB] at h3; simp at h3
        rw [this]
        cases hr : renderTmpl tmpl (alertDict alert) with
        | ok t => simp [dispatch_rendered]
        | error e => cases e <;> simp [dispatch_rendered]

theorem post_receive_eq_dispatch (cfg : Config) (tmpl : Tmpl)
    (bot : SendArgs → Except PyExc String) (alert : Alert) (t : String)
    (hd : should_dispatch cfg alert = true)
    (hr : renderTmpl tmpl (alertDict alert) = Except.ok t) :
    post_receive cfg tmpl bot alert = dispatch cfg bot alert t := by
  unfold should_dispatch at hd
  rw [Bool.and_eq_true, Bool.and_eq_true] at hd
  obtain ⟨⟨hd1, hd2⟩, hd3⟩ := hd
  rw [Bool.not_eq_true'] at hd1
  rw [Bool.not_eq_true'] at hd2
  unfold post_receive
  rw [hd1, hd2]
  have h3 : (!cfg.TELEGRAM_FILTER_NOTIFICATION_SEVERITY.isEmpty &&
      !send_alert_decision cfg.TELEGRAM_FILTER_NOTIFICATION_SEVERITY alert) = false := by
    rcases Bool.or_eq_true_iff.mp hd3 with h | h <;> simp [h]
  rw [h3]
  simp [hr]

theorem post_receive_eq_dispatch_fallback (cfg : Config) (tmpl : Tmpl)
    (bot : SendArgs → Except PyExc String) (alert : Alert)
    (hd : should_dispatch cfg alert = true)
    (hr : renderTmpl tmpl (alertDict alert) = Except.error PyExc.undefinedError) :
    post_receive cfg tmpl bot alert = dispatch cfg bot alert FALLBACK_TEXT := by
  unfold should_dispatch at hd
  rw [Bool.and_eq_true, Bool.and_eq_true] at hd
  obtain ⟨⟨hd1, hd2⟩, hd3⟩ := hd
  rw [Bool.not_eq_true'] at hd1
  rw [Bool.not_eq_true'] at hd2
  unfold post_receive
  rw [hd1, hd2]
  have h3 : (!cfg.TELEGRAM_FILTER_NOTIFICATION_SEVERITY.isEmpty &&
      !send_alert_decision cfg.TELEGRAM_FILTER_NOTIFICATION_SEVERITY alert) = false := by
    rcases Bool.or_eq_true_iff.mp hd3 with h | h <;> simp [h]
  rw [h3]
  simp [hr]

theorem calls_spec (cfg : Config) (tmpl : Tmpl) (bot : SendArgs → Except PyExc String)
    (alert : Alert) :
    (post_receive cfg tmpl bot alert).calls = [] ∨
    ∃ t m, cfg.TELEGRAM_CHAT_ID_PER_CUSTOMER = some m ∧
      (post_receive cfg tmpl bot alert).calls = [mkSendArgs cfg alert m t] := by
  unfold post_receive
  cases h1 : alert.«repeat» with
  | true => simp [suppressedResult]
  | false =>
    simp only [Bool.false_eq_true, if_false]
    cases h2 : (alert.status == "closed" && alert.previous_severity == "indeterminate") with
    | true => simp [suppressedResult]
    | false =>
      simp only [Bool.false_eq_true, if_false]
      cases h3 : (!cfg.TELEGRAM_FILTER_NOTIFICATION_SEVERITY.isEmpty &&
          !send_alert_decision cfg.TELEGRAM_FILTER_NOTIFICATION_SEVERITY alert) with
      | true => simp [suppressedResult]
      | false =>
        simp only [Bool.false_eq_true, if_false]
        have hdisp : ∀ t : String, (dispatch cfg bot alert t).calls = [] ∨
            ∃ m, cfg.TELEGRAM_CHAT_ID_PER_CUSTOMER = some m ∧
              (dispatch cfg bot alert t).calls = [mkSendArgs cfg alert m t] := by
          intro t
          cases hm : cfg.TELEGRAM_CHAT_ID_PER_CUSTOMER with
          | none => left; rw [dispatch_none_map cfg bot alert t hm]
          | some m => right; exact ⟨m, rfl, dispatch_some_map_calls cfg bot alert t m hm⟩
        cases hr : renderTmpl tmpl (alertDict alert) with
        | ok t =>
          rcases hdisp t with h | ⟨m, hm, h⟩
          · left; exact h
          · right; exact ⟨t, m, hm, h⟩
        | error e =>
          cases e with
          | undefinedError =>
            rcases hdisp FALLBACK_TEXT with h | ⟨m, hm, h⟩
            · left; exact h
            · right; exact ⟨FALLBACK_TEXT, m, hm, h⟩
          | telegramError c d j => left; rfl
          | typeError m => left; rfl
          | other m => left; rfl

/-! Claim theorems. -/

/-- Claim C6: for every alert event whose repeat flag is true, `post_receive`
suppresses the notification regardless of every other field and of the
configuration: it returns early with no template render and no
`sendMessage` call. -/
theorem repeat_suppresses (cfg : Config) (tmpl : Tmpl)
    (bot : SendArgs → Except PyExc String) (alert : Alert)
    (h : alert.«repeat» = true) :
    post_receive cfg tmpl bot alert = suppressedResult ∧
    (post_receive cfg tmpl bot alert).rendered = false ∧
    (post_receive cfg tmpl bot alert).calls = [] := by
  have h0 : post_receive cfg tmpl bot alert = suppressedResult := by
    unfold post_receive
    rw [h]
    simp
  exact ⟨h0, by rw [h0]; rfl, by rw [h0]; rfl⟩

theorem repeat_suppresses_witness :
    alertRepeated.«repeat» = true ∧
    post_receive cfgBase tmplLit botOk alertRepeated = suppressedResult :=
  ⟨rfl, (repeat_suppresses cfgBase tmplLit botOk alertRepeated rfl).1⟩

/-- Claim C7: every non-repeat event with status `"closed"` and previous
severity `"indeterminate"` is suppressed: `post_receive` returns early with
no template render and no `sendMessage` call. -/
theorem closed_indeterminate_suppresses (cfg : Config) (tmpl : Tmpl)
    (bot : SendArgs → Except PyExc String) (alert : Alert)
    (h1 : alert.«repeat» = false) (h2 : alert.status = "closed")
    (h3 : alert.previous_severity = "indeterminate") :
    post_receive cfg tmpl bot alert = suppressedResult ∧
    (post_receive cfg tmpl bot alert).rendered = false ∧
    (post_receive cfg tmpl bot alert).calls = [] := by
  have h0 : post_receive cfg tmpl bot alert = suppressedResult := by
    unfold post_receive
    rw [h1, h2, h3]
    simp
  exact ⟨h0, by rw [h0]; rfl, by rw [h0]; rfl⟩

theorem closed_indeterminate_suppresses_witness :
    (alertClosedIndet.«repeat» = false ∧ alertClosedIndet.status = "closed" ∧
      alertClosedIndet.previous_severity = "indeterminate") ∧
    post_receive cfgBase tmplLit botOk alertClosedIndet = suppressedResult :=
  ⟨⟨rfl, rfl, rfl⟩,
   (closed_indeterminate_suppresses cfgBase tmplLit botOk alertClosedIndet rfl rfl rfl).1⟩

/-- Claim C10: rendering is a pure function of the template and the alert's
field dict — rendering the same template against the same event twice yields
identical text (there is no hidden mutable state in the embedding of the
renderer). -/
theorem render_deterministic (tmpl : Tmpl) (alert : Alert) :
    renderTmpl tmpl (alertDict alert) = renderTmpl tmpl (alertDict alert) := rfl

/-- Claim C8: with the filter-severity option empty/unset, every non-repeat
event that is not closed-with-indeterminate-previous-severity passes the
filter unconditionally: the template is rendered, and (whenever the
per-customer map is a dict and the render succeeds) exactly one
`sendMessage` call is made. -/
theorem empty_filter_sends (cfg : Config) (tmpl : Tmpl)
    (bot : SendArgs → Except PyExc String) (alert : Alert)
    (hf : cfg.TELEGRAM_FILTER_NOTIFICATION_SEVERITY = [])
    (hr : alert.«repeat» = false)
    (hc : ¬(alert.status = "closed" ∧ alert.previous_severity = "indeterminate")) :
    (post_receive cfg tmpl bot alert).rendered = true ∧
    ∀ m t, cfg.TELEGRAM_CHAT_ID_PER_CUSTOMER = some m →
      renderTmpl tmpl (alertDict alert) = Except.ok t →
      (post_receive cfg tmpl bot alert).calls = [mkSendArgs cfg alert m t] := by
  have hclosed : (alert.status == "closed" && alert.previous_severity == "indeterminate") = false := by
    cases hs : (alert.status == "closed") with
    | false => simp
    | true =>
      cases hp : (alert.previous_severity == "indeterminate") with
      | false => simp
      | true => exact absurd ⟨by simpa using hs, by simpa using hp⟩ hc
  have hd : should_dispatch cfg alert = true := by
    unfold should_dispatch
    rw [hr, hclosed, hf]
    simp
  constructor
  · rw [post_receive_rendered]
    exact hd
  · intro m t hm hrt
    rw [post_receive_eq_dispatch cfg tmpl bot alert t hd hrt]
    exact dispatch_some_map_calls cfg bot alert t m hm

theorem empty_filter_sends_witness :
    (cfgBase.TELEGRAM_FILTER_NOTIFICATION_SEVERITY = [] ∧ alertOpen.«repeat» = false ∧
      ¬(alertOpen.status = "closed" ∧ alertOpen.previous_severity = "indeterminate")) ∧
    (post_receive cfgBase tmplLit botOk alertOpen).rendered = true ∧
    (post_receive cfgBase tmplLit botOk alertOpen).calls =
      [mkSendArgs cfgBase alertOpen [(some "acme", "-1002")] "message"] :=
  ⟨⟨rfl, rfl, by decide⟩,
   (empty_filter_sends cfgBase tmplLit botOk alertOpen rfl rfl (by decide)).1,
   (empty_filter_sends cfgBase tmplLit botOk alertOpen rfl rfl (by decide)).2
     [(some "acme", "-1002")] "message" rfl rfl⟩

/-- Claim C4: whenever the per-customer channel map is a dict and a
`sendMessage` call is made, its chat id is the map's entry when the event's
customer is a key of the map, and the default `TELEGRAM_CHAT_ID` when the
customer (set or unset) is absent from the map. -/
theorem customer_channel_resolution (cfg : Config) (tmpl : Tmpl)
    (bot : SendArgs → Except PyExc String) (alert : Alert)
    (m : List (Option String × String)) (a : SendArgs)
    (hm : cfg.TELEGRAM_CHAT_ID_PER_CUSTOMER = some m)
    (ha : a ∈ (post_receive cfg tmpl bot alert).calls) :
    (∀ c, m.lookup alert.customer = some c → a.chat_id = c) ∧
    (m.lookup alert.customer = none → a.chat_id = cfg.TELEGRAM_CHAT_ID) := by
  rcases calls_spec cfg tmpl bot alert with h | ⟨t, m2, hm2, h⟩
  · rw [h] at ha
    exact absurd ha (List.not_mem_nil a)
  · rw [h] at ha
    have ham : a = mkSendArgs cfg alert m2 t := List.eq_of_mem_singleton ha
    have hmm : m2 = m := by
      rw [hm] at hm2
      exact (Option.some.inj hm2).symm
    subst hmm
    subst ham
    constructor
    · intro c hcl
      simp [mkSendArgs, tg_chat_id_for, hcl]
    · intro hcl
      simp [mkSendArgs, tg_chat_id_for, hcl]

theorem customer_channel_resolution_witness :
    (cfgBase.TELEGRAM_CHAT_ID_PER_CUSTOMER = some [(some "acme", "-1002")] ∧
      mkSendArgs cfgBase alertAcme [(some "acme", "-1002")] "message" ∈
        (post_receive cfgBase tmplLit botOk alertAcme).calls) ∧
    (mkSendArgs cfgBase alertAcme [(some "acme", "-1002")] "message").chat_id = "-1002" :=
  ⟨⟨rfl, by decide⟩,
   (customer_channel_resolution cfgBase tmplLit botOk alertAcme [(some "acme", "-1002")]
      (mkSendArgs cfgBase alertAcme [(some "acme", "-1002")] "message") rfl (by decide)).1
     "-1002" rfl⟩

/-- Claim C1: with a non-empty filter-severity set, a non-repeat event that
is not closed-with-indeterminate-previous-severity reaches rendering and
dispatch iff: for status `"closed"`, its previous severity is in the set;
for any other status, its previous or its current severity is in the set. -/
theorem filter_severity_membership (cfg : Config) (tmpl : Tmpl)
    (bot : SendArgs → Except PyExc String) (alert : Alert)
    (hf : cfg.TELEGRAM_FILTER_NOTIFICATION_SEVERITY ≠ [])
    (hr : alert.«repeat» = false)
    (hc : ¬(alert.status = "closed" ∧ alert.previous_severity = "indeterminate")) :
    ((post_receive cfg tmpl bot alert).rendered = true ↔
      (if alert.status = "closed"
       then alert.previous_severity ∈ cfg.TELEGRAM_FILTER_NOTIFICATION_SEVERITY
       else alert.previous_severity ∈ cfg.TELEGRAM_FILTER_NOTIFICATION_SEVERITY ∨
            alert.severity ∈ cfg.TELEGRAM_FILTER_NOTIFICATION_SEVERITY)) := by
  rw [post_receive_rendered]
  have hie : cfg.TELEGRAM_FILTER_NOTIFICATION_SEVERITY.isEmpty = false := by
    cases hl : cfg.TELEGRAM_FILTER_NOTIFICATION_SEVERITY with
    | nil => exact absurd hl hf
    | cons a l => rfl
  have hclosed : (alert.status == "closed" && alert.previous_severity == "indeterminate") = false := by
    cases hs : (alert.status == "closed") with
    | false => simp
    | true =>
      cases hp : (alert.previous_severity == "indeterminate") with
      | false => simp
      | true => exact absurd ⟨by simpa using hs, by simpa using hp⟩ hc
  unfold should_dispatch send_alert_decision
  rw [hr, hclosed, hie]
  by_cases hs : alert.status = "closed"
  · simp [hs]
  · simp [hs]

theorem filter_severity_membership_witness :
    (cfgFilter.TELEGRAM_FILTER_NOTIFICATION_SEVERITY ≠ [] ∧ alertOpen.«repeat» = false ∧
      ¬(alertOpen.status = "closed" ∧ alertOpen.previous_severity = "indeterminate")) ∧
    ((post_receive cfgFilter tmplLit botOk alertOpen).rendered = true ↔
      (if alertOpen.status = "closed"
       then alertOpen.previous_severity ∈ cfgFilter.TELEGRAM_FILTER_NOTIFICATION_SEVERITY
       else alertOpen.previous_severity ∈ cfgFilter.TELEGRAM_FILTER_NOTIFICATION_SEVERITY ∨
            alertOpen.severity ∈ cfgFilter.TELEGRAM_FILTER_NOTIFICATION_SEVERITY)) :=
  ⟨⟨by decide, rfl, by decide⟩,
   filter_severity_membership cfgFilter tmplLit botOk alertOpen (by decide) rfl (by decide)⟩

/-- Claim C2 counterexample: with an empty (unset) sound-severity set the
claim says delivery is always silent, but at this concrete input the one
`sendMessage` call is made with `disable_notification = false` (audible). -/
theorem sound_empty_not_silent_counterexample :
    (post_receive cfgBase tmplLit botOk alertOpen).calls.map SendArgs.disable_notification
      = [false] ∧
    ¬(∀ a ∈ (post_receive cfgBase tmplLit botOk alertOpen).calls,
        a.disable_notification = true) := by
  decide

/-- Claim C2 (amended): in the outbound send call, if the sound-severity set
is non-empty then delivery is silent by default and audible exactly when the
event's severity is in the set; if the set is unset or empty, delivery is
always audible (`disable_notification = false`). -/
theorem sound_severity_flag (cfg : Config) (tmpl : Tmpl)
    (bot : SendArgs → Except PyExc String) (alert : Alert) (a : SendArgs)
    (ha : a ∈ (post_receive cfg tmpl bot alert).calls) :
    a.disable_notification =
      (!cfg.TELEGRAM_SOUND_NOTIFICATION_SEVERITY.isEmpty &&
       !cfg.TELEGRAM_SOUND_NOTIFICATION_SEVERITY.contains alert.severity) := by
  rcases calls_spec cfg tmpl bot alert with h | ⟨t, m, hm, h⟩
  · rw [h] at ha
    exact absurd ha (List.not_mem_nil a)
  · rw [h] at ha
    have ham : a = mkSendArgs cfg alert m t := List.eq_of_mem_singleton ha
    subst ham
    show disable_notification_for cfg alert = _
    unfold disable_notification_for
    cases hie : cfg.TELEGRAM_SOUND_NOTIFICATION_SEVERITY.isEmpty with
    | true => simp [hie]
    | false =>
      cases hct : cfg.TELEGRAM_SOUND_NOTIFICATION_SEVERITY.contains alert.severity with
      | true => simp [hct]
      | false => simp [hct]

theorem sound_severity_flag_witness :
    (mkSendArgs cfgBase alertOpen [(some "acme", "-1002")] "message" ∈
      (post_receive cfgBase tmplLit botOk alertOpen).calls) ∧
    (mkSendArgs cfgBase alertOpen [(some "acme", "-1002")] "message").disable_notification =
      (!cfgBase.TELEGRAM_SOUND_NOTIFICATION_SEVERITY.isEmpty &&
       !cfgBase.TELEGRAM_SOUND_NOTIFICATION_SEVERITY.contains alertOpen.severity) :=
  ⟨by decide,
   sound_severity_flag cfgBase tmplLit botOk alertOpen
     (mkSendArgs cfgBase alertOpen [(some "acme", "-1002")] "message") (by decide)⟩

/-- Claim C3 counterexample: a template touching an undefined field is
dispatched with the code's actual fallback string, which is not the string
the claim asserts ("Something bad has happened but we can\x27t render your
message template."). -/
theorem fallback_text_counterexample :
    (post_receive cfgBase tmplUndef botOk alertOpen).calls.map SendArgs.text
      = [FALLBACK_TEXT] ∧
    FALLBACK_TEXT ≠
      "Something bad has happened but we can\x27t render your message template." := by
  decide

/-- Claim C3 (amended): when rendering raises `UndefinedError`, the failure
is recovered locally: the text used for dispatch is exactly the code's
fallback string "Something bad has happened but also we can\x27t handle your
telegram template message.", and dispatch still proceeds. -/
theorem render_fallback (cfg : Config) (tmpl : Tmpl)
    (bot : SendArgs → Except PyExc String) (alert : Alert)
    (hrend : renderTmpl tmpl (alertDict alert) = Except.error PyExc.undefinedError)
    (hd : should_dispatch cfg alert = true) :
    post_receive cfg tmpl bot alert = dispatch cfg bot alert FALLBACK_TEXT ∧
    (post_receive cfg tmpl bot alert).rendered = true ∧
    (∀ a ∈ (post_receive cfg tmpl bot alert).calls, a.text = FALLBACK_TEXT) ∧
    (∀ m, cfg.TELEGRAM_CHAT_ID_PER_CUSTOMER = some m →
      (post_receive cfg tmpl bot alert).calls ≠ []) := by
  have h0 := post_receive_eq_dispatch_fallback cfg tmpl bot alert hd hrend
  refine ⟨h0, ?_, ?_, ?_⟩
  · rw [h0]
    exact dispatch_rendered cfg bot alert FALLBACK_TEXT
  · intro a ha
    rw [h0] at ha
    cases hm : cfg.TELEGRAM_CHAT_ID_PER_CUSTOMER with
    | none =>
      rw [dispatch_none_map cfg bot alert FALLBACK_TEXT hm] at ha
      exact absurd ha (List.not_mem_nil a)
    | some m =>
      rw [dispatch_some_map_calls cfg bot alert FALLBACK_TEXT m hm] at ha
      have := List.eq_of_mem_singleton ha
      subst this
      rfl
  · intro m hm
    rw [h0, dispatch_some_map_calls cfg bot alert FALLBACK_TEXT m hm]
    simp

theorem render_fallback_witness :
    (renderTmpl tmplUndef (alertDict alertOpen) = Except.error PyExc.undefinedError ∧
      should_dispatch cfgBase alertOpen = true) ∧
    post_receive cfgBase tmplUndef botOk alertOpen =
      dispatch cfgBase botOk alertOpen FALLBACK_TEXT :=
  ⟨⟨by decide, rfl⟩,
   (render_fallback cfgBase tmplUndef botOk alertOpen (by decide) rfl).1⟩

theorem post_receive_dispatch_of_calls_ne (cfg : Config) (tmpl : Tmpl)
    (bot : SendArgs → Except PyExc String) (alert : Alert)
    (h : (post_receive cfg tmpl bot alert).calls ≠ []) :
    ∃ t, post_receive cfg tmpl bot alert = dispatch cfg bot alert t := by
  unfold post_receive at h ⊢
  cases h1 : alert.«repeat» with
  | true => simp [h1, suppressedResult] at h
  | false =>
    simp only [h1, Bool.false_eq_true, if_false] at h ⊢
    cases h2 : (alert.status == "closed" && alert.previous_severity == "indeterminate") with
    | true => simp [h2, suppressedResult] at h
    | false =>
      simp only [h2, Bool.false_eq_true, if_false] at h ⊢
      cases h3 : (!cfg.TELEGRAM_FILTER_NOTIFICATION_SEVERITY.isEmpty &&
          !send_alert_decision cfg.TELEGRAM_FILTER_NOTIFICATION_SEVERITY alert) with
      | true => simp [h3, suppressedResult] at h
      | false =>
        simp only [h3, Bool.false_eq_true, if_false] at h ⊢
        cases hrr : renderTmpl tmpl (alertDict alert) with
        | ok t => exact ⟨t, rfl⟩
        | error e =>
          cases e with
          | undefinedError => exact ⟨FALLBACK_TEXT, rfl⟩
          | telegramError c d j => rw [hrr] at h; simp at h
          | typeError msg => rw [hrr] at h; simp at h
          | other msg => rw [hrr] at h; simp at h

/-- Claim C5: every error the `sendMessage` call raises is caught and
re-raised as the uniform `RuntimeError`: a structured `TelegramError`
becomes the detailed form carrying the provider's error code, description
and raw json payload, and any other exception becomes the generic form
carrying the original exception's text; the result type of the embedding
admits no other escape for the original exception. -/
theorem delivery_error_mapping (cfg : Config) (tmpl : Tmpl) (alert : Alert) (e : PyExc)
    (hc : (post_receive cfg tmpl (fun _ => Except.error e) alert).calls ≠ []) :
    (post_receive cfg tmpl (fun _ => Except.error e) alert).result =
      Except.error (Raised.runtimeError (wrapRuntime e)) ∧
    (∀ c d j, e = PyExc.telegramError c d j →
      wrapRuntime e = RuntimeErr.telegramDetail TELEGRAM_ERR_FMT c d j) ∧
    ((∀ c d j, e ≠ PyExc.telegramError c d j) →
      wrapRuntime e = RuntimeErr.generic GENERIC_ERR_FMT (pyExcStr e)) := by
  obtain ⟨t, h0⟩ := post_receive_dispatch_of_calls_ne cfg tmpl (fun _ => Except.error e) alert hc
  refine ⟨?_, ?_, ?_⟩
  · rw [h0] at hc ⊢
    cases hm : cfg.TELEGRAM_CHAT_ID_PER_CUSTOMER with
    | none =>
      rw [dispatch_none_map _ _ _ _ hm] at hc
      simp at hc
    | some m =>
      unfold dispatch
      rw [hm]
  · intro c d j he
    subst he
    rfl
  · intro hne
    cases e with
    | telegramError c d j => exact absurd rfl (hne c d j)
    | undefinedError => rfl
    | typeError msg => rfl
    | other msg => rfl

theorem delivery_error_mapping_witness :
    (post_receive cfgBase tmplLit
        (fun _ => Except.error (PyExc.telegramError 429 "Too Many Requests" "raw_response"))
        alertOpen).calls ≠ [] ∧
    (post_receive cfgBase tmplLit
        (fun _ => Except.error (PyExc.telegramError 429 "Too Many Requests" "raw_response"))
        alertOpen).result =
      Except.error (Raised.runtimeError
        (RuntimeErr.telegramDetail TELEGRAM_ERR_FMT 429 "Too Many Requests" "raw_response")) := by
  constructor
  · decide
  · have h := delivery_error_mapping cfgBase tmplLit alertOpen
      (PyExc.telegramError 429 "Too Many Requests" "raw_response") (by decide)
    rw [h.1]
    rfl

/-- Claim C9: when `TELEGRAM_CHAT_ID_PER_CUSTOMER` is unset (`None`), every
event that passes the filter ends in the generic `RuntimeError` (the
membership test on `None` raises `TypeError`, wrapped by `except
Exception`) before any `sendMessage` call, even though a default chat id is
configured — so no notification is ever delivered. -/
theorem none_map_delivery_error (cfg : Config) (tmpl : Tmpl)
    (bot : SendArgs → Except PyExc String) (alert : Alert)
    (hm : cfg.TELEGRAM_CHAT_ID_PER_CUSTOMER = none)
    (hd : should_dispatch cfg alert = true)
    (hrend : renderRecoverable tmpl (alertDict alert)) :
    (post_receive cfg tmpl bot alert).calls = [] ∧
    (post_receive cfg tmpl bot alert).result =
      Except.error (Raised.runtimeError
        (RuntimeErr.generic GENERIC_ERR_FMT (pyExcStr noneMapTypeErr))) := by
  cases hrr : renderTmpl tmpl (alertDict alert) with
  | ok t =>
    have h0 := post_receive_eq_dispatch cfg tmpl bot alert t hd hrr
    rw [h0, dispatch_none_map cfg bot alert t hm]
    exact ⟨rfl, rfl⟩
  | error e =>
    have he := hrend e hrr
    subst he
    have h0 := post_receive_eq_dispatch_fallback cfg tmpl bot alert hd hrr
    rw [h0, dispatch_none_map cfg bot alert FALLBACK_TEXT hm]
    exact ⟨rfl, rfl⟩

theorem none_map_delivery_error_witness :
    (cfgNoMap.TELEGRAM_CHAT_ID_PER_CUSTOMER = none ∧
      should_dispatch cfgNoMap alertOpen = true) ∧
    (post_receive cfgNoMap tmplLit botOk alertOpen).calls = [] ∧
    (post_receive cfgNoMap tmplLit botOk alertOpen).result =
      Except.error (Raised.runtimeError
        (RuntimeErr.generic GENERIC_ERR_FMT (pyExcStr noneMapTypeErr))) :=
  ⟨⟨rfl, rfl⟩,
   none_map_delivery_error cfgNoMap tmplLit botOk alertOpen rfl rfl
     (fun _ h => Except.noConfusion h)⟩

end AlertaTelegram
